import Mathlib

/-!
Shallow embedding of the OOI "Discrete Sample Summary" format checker
(`discrete_summary_checker/example/Check_Format.ipynb`).

The notebook's own validation logic (`check_decimal`, `check_int`,
`check_len`, `is_same`, the header-order loop, the schema column lists and
the grouped per-cruise/per-station loop) is translated directly.  The
notebook builds on the `pandas_schema` library and the Python standard
library; those behaviours are embedded by their implementations:

* `MatchesPatternValidation(p)` validates with
  `series.astype(str).str.contains(p)`, i.e. Python `re.search` semantics
  (the pattern may match anywhere inside `str(value)`, not anchored).
* `InRangeValidation(min, max)` applies `pd.to_numeric(series,
  errors=coerce)` and then `(series >= min) & (series < max)` - the lower
  bound is inclusive, the upper bound exclusive, and non-numeric values
  coerce to NaN and fail every comparison.
* `Series.mode()` returns the most frequent values sorted ascending, so
  `series.mode()[0]` is the least most-frequent value.
* Python `Decimal(x)` raises `InvalidOperation` on a malformed string but
  `TypeError` on `None`; `int(x)` raises `ValueError` on a malformed
  string or on `nan`, `TypeError` on `None`, and truncates a float toward
  zero.

Cell values are modelled by `PyVal`: a string, an integer, a finite float
(carried as its exact decimal value `m / 10 ^ e`), the float `nan`, or
`None`.  Fallible Python calls return `Except PyExc`.
-/

namespace DiscreteSummary

/-- Exact decimal number `m / 10 ^ e`.  The bound and cell numbers the
notebook manipulates (schema bounds, fill values, spreadsheet floats) are
all decimal, so a finite float is carried exactly. -/
structure Dec where
  m : Int
  e : Nat
deriving DecidableEq

/-- Rational value of a decimal. -/
def Dec.toRat (d : Dec) : ℚ := (d.m : ℚ) / (10 : ℚ) ^ d.e

/-- Boolean `≤` on decimals by cross-multiplication over `Int`. -/
def Dec.leB (a b : Dec) : Bool :=
  decide (a.m * (10 : Int) ^ b.e ≤ b.m * (10 : Int) ^ a.e)

/-- Boolean `<` on decimals by cross-multiplication over `Int`. -/
def Dec.ltB (a b : Dec) : Bool :=
  decide (a.m * (10 : Int) ^ b.e < b.m * (10 : Int) ^ a.e)

/-- Model of a Python cell value as it sits in the pandas table: a string,
an int, a finite float (exact decimal value), the float `nan`, or `None`. -/
inductive PyVal where
  | str (s : String)
  | int (n : Int)
  | float (d : Dec)
  | nan
  | none
deriving DecidableEq

/-- Python exceptions the embedded calls can raise. -/
inductive PyExc where
  | typeError
  | valueError
  | invalidOperation
deriving DecidableEq

/-- Drop a mantissa's trailing decimal zeros: `(31400, 4)` becomes
`(314, 2)`, mirroring Python's shortest float repr on decimal inputs. -/
def Dec.normStep : Int → Nat → Int × Nat
  | m, 0 => (m, 0)
  | m, Nat.succ e => if m % 10 == 0 then Dec.normStep (m / 10) e else (m, Nat.succ e)

/-- Pad a digit string with leading zeros up to the given length. -/
def padZeros (len : Nat) (s : String) : String :=
  if s.length < len then String.mk (List.replicate (len - s.length) '0') ++ s else s

/-- Python `repr`/`str` of the finite float `m / 10 ^ e`: an integer value
renders as `N.0`, otherwise the exact decimal digits (faithful to Python's
shortest round-trip repr on the decimal values handled here). -/
def Dec.render (d : Dec) : String :=
  match Dec.normStep d.m d.e with
  | (m, 0) => toString m ++ ".0"
  | (m, e) =>
    let sign := if m < 0 then "-" else ""
    let a := padZeros (e + 1) (toString m.natAbs)
    sign ++ String.mk (a.toList.take (a.length - e)) ++ "." ++ String.mk (a.toList.drop (a.length - e))

/-- Python `str(value)` on the cell model (pandas `astype(str)` applies
this elementwise). -/
def pyStr : PyVal → String
  | .str s => s
  | .int n => toString n
  | .float d => Dec.render d
  | .nan => "nan"
  | .none => "None"

/-- Strip leading and trailing whitespace from a character list. -/
def stripSpaces (cs : List Char) : List Char :=
  ((cs.dropWhile (·.isWhitespace)).reverse.dropWhile (·.isWhitespace)).reverse

/-- Value of a string of decimal digits. -/
def digitsToNat (cs : List Char) : Nat :=
  cs.foldl (fun a c => a * 10 + (c.toNat - 48)) 0

/-- Python `int(s)` on a string: optional surrounding whitespace, optional
sign, then one or more decimal digits; anything else raises `ValueError`
(so `int("3.14")` fails). -/
def parseIntString (s : String) : Option Int :=
  let cs := stripSpaces s.toList
  let p : Int × List Char :=
    match cs with
    | '+' :: rest => (1, rest)
    | '-' :: rest => (-1, rest)
    | rest => (1, rest)
  if !p.2.isEmpty && p.2.all (·.isDigit) then some (p.1 * digitsToNat p.2) else Option.none

/-- Whether Python `Decimal(s)` succeeds on a string: optional whitespace
and sign, then digits with at most one decimal point (and at least one
digit), an optional exponent part, or the special words nan/inf/infinity
(case-insensitive). -/
def decimalStringOK (s : String) : Bool :=
  let cs := stripSpaces s.toList
  let cs :=
    match cs with
    | '+' :: rest => rest
    | '-' :: rest => rest
    | rest => rest
  let lower := cs.map Char.toLower
  if lower = "nan".toList ∨ lower = "inf".toList ∨ lower = "infinity".toList then true
  else
    let mant := cs.takeWhile (fun c => !(c == 'e' || c == 'E'))
    let rest := cs.dropWhile (fun c => !(c == 'e' || c == 'E'))
    let expOK : Bool :=
      match rest with
      | [] => true
      | _ :: es =>
        let ds :=
          match es with
          | '+' :: r => r
          | '-' :: r => r
          | r => r
        !ds.isEmpty && ds.all (·.isDigit)
    let ip := mant.takeWhile (fun c => c != '.')
    let fp := mant.dropWhile (fun c => c != '.')
    let fs :=
      match fp with
      | [] => ([] : List Char)
      | _ :: t => t
    (!(ip ++ fs).isEmpty && (ip ++ fs).all (·.isDigit)) && expOK

/-- Python `Decimal(value)`: succeeds on strings that parse, on ints and on
floats (including `nan`, which gives `Decimal(NaN)`); raises
`InvalidOperation` on a malformed string and `TypeError` on `None`. -/
def pyDecimal : PyVal → Except PyExc Unit
  | .str s => if decimalStringOK s then .ok () else .error .invalidOperation
  | .int _ => .ok ()
  | .float _ => .ok ()
  | .nan => .ok ()
  | .none => .error .typeError

/-- Truncation toward zero of `m / 10 ^ e` (what Python `int()` does to a
finite float). -/
def Dec.trunc (d : Dec) : Int :=
  (if d.m < 0 then (-1 : Int) else 1) * Int.ofNat (d.m.natAbs / 10 ^ d.e)

/-- Python `int(value)`: parses strings (or raises `ValueError`), passes
ints through, truncates finite floats toward zero, raises `ValueError` on
`nan` and `TypeError` on `None`. -/
def pyInt : PyVal → Except PyExc Int
  | .str s =>
    match parseIntString s with
    | some n => .ok n
    | Option.none => .error .valueError
  | .int n => .ok n
  | .float d => .ok (Dec.trunc d)
  | .nan => .error .valueError
  | .none => .error .typeError

/-- Notebook `check_decimal`: `try: Decimal(dec) except InvalidOperation:
return False` then `return True`.  Only `InvalidOperation` is caught; any
other exception (e.g. `TypeError` on `None`) propagates. -/
def check_decimal (dec : PyVal) : Except PyExc Bool :=
  match pyDecimal dec with
  | .ok _ => .ok true
  | .error .invalidOperation => .ok false
  | .error e => .error e

/-- Notebook `check_int`: `try: int(num) except ValueError: return False`
then `return True`.  Only `ValueError` is caught. -/
def check_int (num : PyVal) : Except PyExc Bool :=
  match pyInt num with
  | .ok _ => .ok true
  | .error .valueError => .ok false
  | .error e => .error e

/-- Notebook `check_len`: `flag = str(flag)` then pass iff the length is 17
or 8. -/
def check_len (flag : PyVal) : Bool :=
  let s := pyStr flag
  s.length == 17 || s.length == 8

/-- Substring containment of a literal pattern, i.e. Python
`re.search(pat, s) is not None` for a pattern without metacharacters -
the semantics of pandas `Series.str.contains` used by
`MatchesPatternValidation`. -/
def containsSub (pat : List Char) : List Char → Bool
  | [] => pat.isEmpty
  | c :: rest => pat.isPrefixOf (c :: rest) || containsSub pat rest

/-- Schema fill-value validator `MatchesPatternValidation("-9999999")` on
one cell: pandas `str.contains` of the literal pattern on `str(value)`. -/
def matchesFillPattern (v : PyVal) : Bool :=
  containsSub "-9999999".toList (pyStr v).toList

/-- re.search of the notebook's ungrouped regex `\*0|1{16}`: because `|`
binds loosest, it finds an occurrence of `*0` or an occurrence of sixteen
consecutive `1`s. -/
def ungroupedFlagSearch (s : String) : Bool :=
  containsSub "*0".toList s.toList || containsSub (List.replicate 16 '1') s.toList

/-- re.search of the corrected regex `\*(0|1){16}`: an occurrence of `*`
followed by sixteen binary digits. -/
def groupedFlagSearch : List Char → Bool
  | [] => false
  | c :: rest =>
    (c == '*' && (rest.take 16).length == 16 && (rest.take 16).all (fun d => d == '0' || d == '1'))
      || groupedFlagSearch rest

/-- Cast Flag column's pattern validator from the schema:
`MatchesPatternValidation(r"\*0|1{16}") | MatchesPatternValidation("-9999999")`. -/
def castFlagPatternCheck (v : PyVal) : Bool :=
  ungroupedFlagSearch (pyStr v) || matchesFillPattern v

/-- CTD Pressure Flag column's pattern validator from the schema: the same
ungrouped `MatchesPatternValidation(r"\*0|1{16}") |
MatchesPatternValidation("-9999999")`. -/
def ctdPressureFlagPatternCheck (v : PyVal) : Bool :=
  ungroupedFlagSearch (pyStr v) || matchesFillPattern v

/-- CTD File Flag column's pattern validator from the schema (the grouped
form): `MatchesPatternValidation(r"\*(0|1){16}") |
MatchesPatternValidation("-9999999")`. -/
def ctdFileFlagPatternCheck (v : PyVal) : Bool :=
  groupedFlagSearch (pyStr v).toList || matchesFillPattern v

/-- Modelled from the spec: the canonical flag form, a leading `*` followed
by exactly sixteen binary digits. -/
def canonicalFlag (s : String) : Bool :=
  match s.toList with
  | '*' :: rest => rest.length == 16 && rest.all (fun c => c == '0' || c == '1')
  | _ => false

/-- Error messages the Cast Flag column's validator list
`[LengthValidation, pattern-or-fill]` produces on one cell; both
validators are applied independently to every cell. -/
def castFlagCellErrors (v : PyVal) : List String :=
  (if check_len v then [] else ["is the wrong length"]) ++
    (if castFlagPatternCheck v then [] else ["does not match the pattern"])

/-- pandas `to_numeric(errors=coerce)` on one cell: strings are parsed as
decimal numbers (optional sign, digits with at most one point, optional
exponent), ints and finite floats pass through, `nan`, `None` and
unparsable strings coerce to NaN (`Option.none`). -/
def parseNumericString (s : String) : Option Dec :=
  let cs := stripSpaces s.toList
  let p : Int × List Char :=
    match cs with
    | '+' :: rest => (1, rest)
    | '-' :: rest => (-1, rest)
    | rest => (1, rest)
  let mant := p.2.takeWhile (fun c => !(c == 'e' || c == 'E'))
  let rest := p.2.dropWhile (fun c => !(c == 'e' || c == 'E'))
  let expPart : Option Int :=
    match rest with
    | [] => some 0
    | _ :: es =>
      let q : Int × List Char :=
        match es with
        | '+' :: r => (1, r)
        | '-' :: r => (-1, r)
        | r => (1, r)
      if !q.2.isEmpty && q.2.all (·.isDigit) then some (q.1 * digitsToNat q.2) else Option.none
  let ip := mant.takeWhile (fun c => c != '.')
  let fp := mant.dropWhile (fun c => c != '.')
  let fs :=
    match fp with
    | [] => ([] : List Char)
    | _ :: t => t
  if !(ip ++ fs).isEmpty && (ip ++ fs).all (·.isDigit) then
    match expPart with
    | some k =>
      let base : Int := p.1 * digitsToNat (ip ++ fs)
      if 0 ≤ k then some ⟨base * 10 ^ k.toNat, fs.length⟩
      else some ⟨base, fs.length + (-k).toNat⟩
    | Option.none => Option.none
  else Option.none

/-- pandas `to_numeric(errors=coerce)` per element; `Option.none` stands
for the coerced NaN. -/
def toNumeric : PyVal → Option Dec
  | .str s => parseNumericString s
  | .int n => some ⟨n, 0⟩
  | .float d => some d
  | .nan => Option.none
  | .none => Option.none

/-- pandas_schema `InRangeValidation(min, max)` on one cell: coerce with
`to_numeric`, then pass iff `min ≤ x` and `x < max` (upper bound
exclusive); the coerced NaN fails both comparisons. -/
def inRange (mn mx : Dec) (v : PyVal) : Bool :=
  match toNumeric v with
  | some d => Dec.leB mn d && Dec.ltB d mx
  | Option.none => false

/-- Reports printed by the notebook's header-order loop. -/
inductive HeaderReport where
  | moved (column : String) (k ind : Nat)
  | notAccepted (column expectedHere : String)
  | delete (column : String)
deriving DecidableEq

/-- Body of the notebook's header loop from position `k` on: for each
actual column, compare with `column_headers[k]`; on mismatch report a move
(if the name occurs in the expected tuple, to its `.index`) or a
not-accepted header; past the end of the expected tuple the `IndexError`
branch reports the column for deletion. -/
def headerCheckFrom (expected : List String) : Nat → List String → List HeaderReport
  | _, [] => []
  | k, column :: rest =>
    (match expected[k]? with
     | some exp =>
       if column = exp then []
       else if column ∈ expected then [.moved column k (expected.indexOf column)]
       else [.notAccepted column exp]
     | Option.none => [.delete column]) ++ headerCheckFrom expected (k + 1) rest

/-- The notebook's header-order check: enumerate the table's actual
columns against the expected `column_headers` tuple. -/
def headerCheck (expected actual : List String) : List HeaderReport :=
  headerCheckFrom expected 0 actual

section SeriesValidation

variable {V : Type} [DecidableEq V]

/-- Distinct values in first-seen order - pandas `Series.unique()`. -/
def uniqueFirstSeen (l : List V) : List V :=
  l.foldl (fun acc x => if x ∈ acc then acc else acc ++ [x]) []

end SeriesValidation

section ModeValidation

variable {V : Type} [DecidableEq V] [LinearOrder V]

/-- Least element of a list, or `Option.none` when empty. -/
def listMin : List V → Option V
  | [] => Option.none
  | x :: xs =>
    some
      (match listMin xs with
       | Option.none => x
       | some m => min x m)

/-- pandas `series.mode()[0]`: `mode()` lists the values of maximal count
sorted ascending, and `[0]` takes the first, i.e. the least most-frequent
value (`KeyError`, here `Option.none`, on an empty series). -/
def pandasMode (l : List V) : Option V :=
  listMin (l.filter (fun v => decide (∀ w ∈ l, l.count w ≤ l.count v)))

/-- Notebook `is_same`: `series == series.mode()[0]` elementwise.  An
empty series (where `mode()[0]` would raise) has no rows to compare. -/
def is_same (l : List V) : List Bool :=
  match pandasMode l with
  | some m => l.map (fun x => decide (x = m))
  | Option.none => []

/-- Modelled from the spec: the tie-break the spec prescribes for
`ColumnModeEquality` - among the most frequent values, the one whose
first occurrence (lowest row index) comes first. -/
def specModeLowestIndex (l : List V) : Option V :=
  (uniqueFirstSeen l).find? (fun v => decide (∀ w ∈ l, l.count w ≤ l.count v))

end ModeValidation

/-- One row of the metadata table selected in the notebook (the nine
`metadata_columns`); cell values are drawn from a comparable type `V`.
`castNo` models the "Cast" column. -/
structure MetaRow (V : Type) where
  cruise : V
  station : V
  targetAsset : V
  startLat : V
  startLon : V
  startTime : V
  castNo : V
  bottomDepth : V
  ctdFile : V
deriving DecidableEq

/-- pandas_schema `ValidationWarning` as carried to the caller: dataframe
row index, column name, offending value and the validator's message. -/
structure ValidationError (V : Type) where
  row : Nat
  column : String
  value : V
  message : String
deriving DecidableEq

/-- Column order of the notebook's `metadata_schema` (all nine use
`IsSameValidation`). -/
def metadataColumns (V : Type) : List (String × (MetaRow V → V)) :=
  [("Cruise", fun r => r.cruise),
   ("Station", fun r => r.station),
   ("Target Asset", fun r => r.targetAsset),
   ("Start Latitude [degrees]", fun r => r.startLat),
   ("Start Longitude [degrees]", fun r => r.startLon),
   ("Start Time [UTC]", fun r => r.startTime),
   ("Cast", fun r => r.castNo),
   ("Bottom Depth at Start Position [m]", fun r => r.bottomDepth),
   ("CTD File", fun r => r.ctdFile)]

section GroupedValidation

variable {V : Type} [DecidableEq V] [LinearOrder V]

/-- `metadata_schema.validate` on one group's rows (each row keeps its
original dataframe index, as a pandas subset does): for every column of
the schema, rows on which `is_same` is False yield a `ValidationError`
with the message "is not the same as other rows". -/
def schemaValidateRows (rows : List (Nat × MetaRow V)) : List (ValidationError V) :=
  (metadataColumns V).flatMap fun col =>
    let vals := rows.map (fun p => col.2 p.2)
    (rows.zip (is_same vals)).filterMap fun q =>
      if q.2 then Option.none
      else some ⟨q.1.1, col.1, col.2 q.1.2, "is not the same as other rows"⟩

/-- The notebook's nested grouping loop: distinct cruises of the whole
metadata table in first-seen order, then distinct stations of the cruise
subset in first-seen order; each leaf group is the station's rows paired
with the `(cruise, station)` keys of the iteration. -/
def groupsOf (metadata : List (MetaRow V)) : List ((V × V) × List (Nat × MetaRow V)) :=
  let indexed := metadata.enum
  (uniqueFirstSeen (metadata.map (fun r => r.cruise))).flatMap fun c =>
    let cruiseData := indexed.filter (fun p => decide (p.2.cruise = c))
    (uniqueFirstSeen (cruiseData.map (fun p => p.2.station))).map fun st =>
      ((c, st), cruiseData.filter (fun p => decide (p.2.station = st)))

/-- What the notebook's grouped loop emits, in emission order: for each
group in turn, the group's `metadata_schema` errors.  The emitted records
are plain `ValidationError`s - row, column, value, message - with no
group-key field. -/
def groupedErrors (metadata : List (MetaRow V)) : List (ValidationError V) :=
  (groupsOf metadata).flatMap fun g => schemaValidateRows g.2

/-- Instrumented form of the same loop, pairing every emitted error with
the `(cruise, station)` keys of the iteration that produced it (the
ground truth of which group an error came from). -/
def groupedErrorsTagged (metadata : List (MetaRow V)) : List ((V × V) × ValidationError V) :=
  (groupsOf metadata).flatMap fun g => (schemaValidateRows g.2).map (fun e => (g.1, e))

end GroupedValidation

/-- Metadata row with the given cruise, station and start-latitude values
and all other metadata constant. -/
def mkRow (c st lat : ℤ) : MetaRow ℤ :=
  ⟨c, st, 0, lat, 0, 0, 0, 0, 0⟩

/-- Single-group table (cruise 100, station 1) whose third row disagrees
on Start Latitude. -/
def tableA : List (MetaRow ℤ) := [mkRow 100 1 5, mkRow 100 1 5, mkRow 100 1 7]

/-- Same shape as `tableA` but for cruise 200, station 2. -/
def tableB : List (MetaRow ℤ) := [mkRow 200 2 5, mkRow 200 2 5, mkRow 200 2 7]

/-- The one error record either table's grouped validation emits. -/
def latError : ValidationError ℤ :=
  ⟨2, "Start Latitude [degrees]", 7, "is not the same as other rows"⟩

/-! Helper lemmas. -/

theorem isPrefixOf_eq_true_iff {α : Type} [BEq α] [LawfulBEq α] :
    ∀ (l m : List α), l.isPrefixOf m = true ↔ l <+: m
  | [], _ => by simp
  | _ :: _, [] => by simp [List.isPrefixOf]
  | a :: as, b :: bs => by
    simp only [List.isPrefixOf_cons₂, Bool.and_eq_true, beq_iff_eq, List.cons_prefix_cons]
    exact and_congr_right fun _ => isPrefixOf_eq_true_iff as bs

theorem containsSub_eq_true_iff (pat : List Char) :
    ∀ l : List Char, containsSub pat l = true ↔ pat <:+: l
  | [] => by simp [containsSub, List.isEmpty_iff, List.infix_nil]
  | c :: rest => by
    simp only [containsSub, Bool.or_eq_true, isPrefixOf_eq_true_iff,
      containsSub_eq_true_iff pat rest, List.infix_cons_iff]

theorem Dec.toRat_le_iff (a b : Dec) :
    a.toRat ≤ b.toRat ↔ a.m * (10 : ℤ) ^ b.e ≤ b.m * (10 : ℤ) ^ a.e := by
  unfold Dec.toRat
  rw [div_le_div_iff₀ (by positivity) (by positivity)]
  constructor <;> intro h <;> exact_mod_cast h

theorem Dec.toRat_lt_iff (a b : Dec) :
    a.toRat < b.toRat ↔ a.m * (10 : ℤ) ^ b.e < b.m * (10 : ℤ) ^ a.e := by
  unfold Dec.toRat
  rw [div_lt_div_iff₀ (by positivity) (by positivity)]
  constructor <;> intro h <;> exact_mod_cast h

theorem listMin_spec {V : Type} [LinearOrder V] :
    ∀ xs : List V, xs ≠ [] → ∃ a, listMin xs = some a ∧ a ∈ xs ∧ ∀ b ∈ xs, a ≤ b
  | [], h => absurd rfl h
  | [x], _ =>
    ⟨x, rfl, List.mem_singleton_self x, by
      intro b hb
      rw [List.mem_singleton.mp hb]⟩
  | x :: y :: t, _ => by
    obtain ⟨a, ha, hmem, hle⟩ := listMin_spec (y :: t) (by simp)
    refine ⟨min x a, ?_, ?_, ?_⟩
    · have hstep :
          listMin (x :: y :: t) =
            some
              (match listMin (y :: t) with
               | Option.none => x
               | some m => min x m) := rfl
      rw [hstep, ha]
    · rcases min_choice x a with h | h
      · rw [h]; exact List.mem_cons_self x (y :: t)
      · rw [h]; exact List.mem_cons_of_mem x hmem
    · intro b hb
      rcases List.mem_cons.mp hb with rfl | hb'
      · exact min_le_left _ _
      · exact le_trans (min_le_right _ _) (hle b hb')

theorem getElem?_of_drop {α : Type} :
    ∀ (l : List α) (k : Nat) {c : α} {t : List α}, l.drop k = c :: t → l[k]? = some c
  | [], k, _, _, h => by simp at h
  | x :: xs, 0, _, _, h => by
    rw [List.drop_zero] at h
    injection h with h1 _
    rw [List.getElem?_cons_zero, h1]
  | x :: xs, k + 1, _, _, h => by
    rw [List.drop_succ_cons] at h
    rw [List.getElem?_cons_succ]
    exact getElem?_of_drop xs k h

theorem headerCheckFrom_silent (expected : List String) :
    ∀ (actual : List String) (k : Nat),
      actual <+: expected.drop k → headerCheckFrom expected k actual = []
  | [], _, _ => rfl
  | column :: rest, k, h => by
    obtain ⟨t, ht⟩ := h
    have hget : expected[k]? = some column := getElem?_of_drop expected k ht.symm
    have hrest : rest <+: expected.drop (k + 1) := by
      refine ⟨t, ?_⟩
      have hdd : expected.drop (k + 1) = (expected.drop k).drop 1 := by
        rw [List.drop_drop]
      rw [hdd, ← ht]
      rfl
    simp [headerCheckFrom, hget, headerCheckFrom_silent expected rest (k + 1) hrest]

/-! Claim theorems. -/

/-- C1, counterexample: the fill-pattern validator
`MatchesPatternValidation("-9999999")` passes the value `"-99999990"`,
which merely contains the fill sentinel as a proper substring - the claim
says a value that only contains the pattern as a substring must not pass. -/
theorem c1_counterexample :
    matchesFillPattern (.str "-99999990") = true ∧ "-99999990" ≠ "-9999999" := by
  exact ⟨by decide, by decide⟩

/-- C1, amended: the pattern validator has Python `re.search` semantics
(pandas `str.contains` on `str(value)`): it passes a cell iff the pattern
matches some substring of the rendered value, so the fill-pattern
validator passes exactly the values containing `-9999999` as a substring
(for instance the numeric fill `-9999999.0`, rendered `"-9999999.0"`). -/
theorem c1_fill_search_semantics :
    (∀ v : PyVal, matchesFillPattern v = true ↔ "-9999999".toList <:+: (pyStr v).toList) ∧
      matchesFillPattern (.float ⟨-9999999, 0⟩) = true := by
  refine ⟨fun v => ?_, by decide⟩
  exact containsSub_eq_true_iff _ _

/-- C2: the Cast Flag and CTD Pressure Flag columns use the ungrouped
regex `\*0|1{16}`, whose search semantics rejects the canonical flag
`*1010101010101010` (no `*0` occurrence, no run of sixteen `1`s) and
accepts the non-flag `zz*0zz`; the grouped form used by the other flag
columns (here CTD File Flag) accepts the canonical flag. -/
theorem c2_flag_regex_bug :
    castFlagPatternCheck (.str "*1010101010101010") = false ∧
      canonicalFlag "*1010101010101010" = true ∧
      castFlagPatternCheck (.str "zz*0zz") = true ∧
      canonicalFlag "zz*0zz" = false ∧
      ctdPressureFlagPatternCheck (.str "*1010101010101010") = false ∧
      ctdFileFlagPatternCheck (.str "*1010101010101010") = true := by
  decide

/-- C3: `check_decimal` and `check_int` catch only `InvalidOperation`
resp. `ValueError`, so a `None` cell makes both raise `TypeError` instead
of returning False; malformed strings do return False. -/
theorem c3_none_raises :
    check_decimal PyVal.none = .error .typeError ∧
      check_int PyVal.none = .error .typeError ∧
      check_decimal (.str "abc") = .ok false ∧
      check_int (.str "3.14") = .ok false :=
  ⟨rfl, rfl, rfl, rfl⟩

/-- C4, counterexample: on the column `[6, 5, 5, 6]` the values 5 and 6
tie for most frequent; `series.mode()[0]` picks the least value 5, while
the claim's lowest-row-index tie-break would pick 6 (row 0), so the rows
passing `is_same` are exactly the opposite of what the claim predicts. -/
theorem c4_counterexample :
    pandasMode ([6, 5, 5, 6] : List ℕ) = some 5 ∧
      specModeLowestIndex ([6, 5, 5, 6] : List ℕ) = some 6 ∧
      is_same ([6, 5, 5, 6] : List ℕ) = [false, true, true, false] := by
  decide

/-- C4, amended: on any nonempty column the canonical mode the code picks
is the least value among those of maximal count (pandas returns the tied
modes sorted ascending and `[0]` takes the first), and each row passes
`is_same` iff its value equals that canonical mode. -/
theorem c4_mode_min_tiebreak {V : Type} [DecidableEq V] [LinearOrder V]
    (l : List V) (h : l ≠ []) :
    ∃ m, pandasMode l = some m ∧ m ∈ l ∧
      (∀ v ∈ l, l.count v ≤ l.count m) ∧
      (∀ v ∈ l, l.count v = l.count m → m ≤ v) ∧
      is_same l = l.map fun x => decide (x = m) := by
  obtain ⟨m₀, hm₀⟩ : ∃ m₀, l.argmax (fun v => l.count v) = some m₀ := by
    cases hc : l.argmax (fun v => l.count v) with
    | none => exact absurd (List.argmax_eq_none.mp hc) h
    | some m₀ => exact ⟨m₀, rfl⟩
  have hm₀mem : m₀ ∈ l := List.argmax_mem hm₀
  have hm₀max : ∀ w ∈ l, l.count w ≤ l.count m₀ := fun w hw =>
    le_of_not_lt (List.not_lt_of_mem_argmax hw hm₀)
  have hne : l.filter (fun v => decide (∀ w ∈ l, l.count w ≤ l.count v)) ≠ [] := by
    have : m₀ ∈ l.filter (fun v => decide (∀ w ∈ l, l.count w ≤ l.count v)) :=
      List.mem_filter.mpr ⟨hm₀mem, by simpa using hm₀max⟩
    exact List.ne_nil_of_mem this
  obtain ⟨m, hmin, hmem, hle⟩ := listMin_spec _ hne
  have hml : m ∈ l := (List.mem_filter.mp hmem).1
  have hmmax : ∀ w ∈ l, l.count w ≤ l.count m := by
    have := (List.mem_filter.mp hmem).2
    simpa using this
  have hmode : pandasMode l = some m := hmin
  refine ⟨m, hmode, hml, hmmax, ?_, ?_⟩
  · intro v hv hveq
    have hvcand : v ∈ l.filter (fun v => decide (∀ w ∈ l, l.count w ≤ l.count v)) :=
      List.mem_filter.mpr ⟨hv, by
        simp only [decide_eq_true_eq]
        intro w hw
        exact hveq ▸ hmmax w hw⟩
    exact hle v hvcand
  · simp [is_same, hmode]

/-- C4, witness: the amended statement instantiated at `[6, 5, 5, 6]`. -/
theorem c4_mode_min_tiebreak_witness :
    ∃ m, pandasMode ([6, 5, 5, 6] : List ℕ) = some m ∧ m ∈ ([6, 5, 5, 6] : List ℕ) ∧
      (∀ v ∈ ([6, 5, 5, 6] : List ℕ),
        ([6, 5, 5, 6] : List ℕ).count v ≤ ([6, 5, 5, 6] : List ℕ).count m) ∧
      (∀ v ∈ ([6, 5, 5, 6] : List ℕ),
        ([6, 5, 5, 6] : List ℕ).count v = ([6, 5, 5, 6] : List ℕ).count m → m ≤ v) ∧
      is_same ([6, 5, 5, 6] : List ℕ) = ([6, 5, 5, 6] : List ℕ).map fun x => decide (x = m) :=
  c4_mode_min_tiebreak [6, 5, 5, 6] (by decide)

/-- C5, counterexample: `InRangeValidation(0, 35)` fails the boundary
value 35, which the claim says it passes. -/
theorem c5_counterexample :
    inRange ⟨0, 0⟩ ⟨35, 0⟩ (.float ⟨35, 0⟩) = false := by decide

/-- C5, amended: the range validator passes a cell iff numeric coercion
succeeds and `min ≤ x < max` - the lower bound inclusive, the upper
bound exclusive - so `InRangeValidation(0, 35)` passes 0, fails 35,
-0.0001 and 35.0001, and fails (without raising) on non-numeric input. -/
theorem c5_range_half_open :
    (∀ (mn mx : Dec) (v : PyVal),
        inRange mn mx v = true ↔
          ∃ d, toNumeric v = some d ∧ mn.toRat ≤ d.toRat ∧ d.toRat < mx.toRat) ∧
      inRange ⟨0, 0⟩ ⟨35, 0⟩ (.float ⟨0, 0⟩) = true ∧
      inRange ⟨0, 0⟩ ⟨35, 0⟩ (.float ⟨35, 0⟩) = false ∧
      inRange ⟨0, 0⟩ ⟨35, 0⟩ (.float ⟨-1, 4⟩) = false ∧
      inRange ⟨0, 0⟩ ⟨35, 0⟩ (.float ⟨350001, 4⟩) = false ∧
      inRange ⟨0, 0⟩ ⟨35, 0⟩ (.str "abc") = false := by
  refine ⟨fun mn mx v => ?_, by decide, by decide, by decide, by decide, by decide⟩
  cases h : toNumeric v with
  | none => simp [inRange, h]
  | some d =>
    simp [inRange, h, Dec.leB, Dec.ltB, Dec.toRat_le_iff, Dec.toRat_lt_iff]

/-- C6, counterexample: on expected `[A,B,C]` and actual `[A,C,B]` the
loop does not report B moving from 1 to 2 nor C moving from 2 to 1 (it
reports the transposed moves). -/
theorem c6_counterexample :
    HeaderReport.moved "B" 1 2 ∉ headerCheck ["A", "B", "C"] ["A", "C", "B"] ∧
      HeaderReport.moved "C" 2 1 ∉ headerCheck ["A", "B", "C"] ["A", "C", "B"] := by
  decide

/-- C6, amended: for actual `[A,C,B]` the loop reports C misplaced from
position 1 to 2 and B misplaced from position 2 to 1; the unknown-header
and deletion cases are as claimed. -/
theorem c6_header_cases :
    headerCheck ["A", "B", "C"] ["A", "C", "B"] =
        [.moved "C" 1 2, .moved "B" 2 1] ∧
      headerCheck ["A", "B", "C"] ["A", "B", "D"] = [.notAccepted "D" "C"] ∧
      headerCheck ["A", "B", "C"] ["A", "B", "C", "E"] = [.delete "E"] := by
  decide

/-- C7, counterexample: no function can read a group's keys off the
emitted error record - the identical record arises from the cruise-100
station-1 group of one table and the cruise-200 station-2 group of
another - so the emitted records are not tagged with their group keys. -/
theorem c7_counterexample :
    ¬ ∃ gk : ValidationError ℤ → ℤ × ℤ,
        ∀ metadata : List (MetaRow ℤ),
          ∀ p ∈ groupedErrorsTagged metadata, gk p.2 = p.1 := by
  rintro ⟨gk, hgk⟩
  have h1 : gk latError = (100, 1) := hgk tableA ((100, 1), latError) (by decide)
  have h2 : gk latError = (200, 2) := hgk tableB ((200, 2), latError) (by decide)
  have h12 : ((100 : ℤ), (1 : ℤ)) = ((200 : ℤ), (2 : ℤ)) := h1.symm.trans h2
  exact absurd h12 (by decide)

/-- C7, amended: the grouped loop emits each group's errors during that
group's iteration, but what it emits is exactly the per-group error
records stripped of the group keys (row, column, value, message only). -/
theorem c7_errors_untagged {V : Type} [DecidableEq V] [LinearOrder V]
    (metadata : List (MetaRow V)) :
    groupedErrors metadata = (groupedErrorsTagged metadata).map Prod.snd := by
  simp [groupedErrors, groupedErrorsTagged, List.map_flatMap, List.map_map, Function.comp]

/-- C8, counterexample: when the actual headers `[A,B]` omit the expected
column C, the header loop reports nothing at all - in particular no
missing-column report. -/
theorem c8_counterexample :
    headerCheck ["A", "B", "C"] ["A", "B"] = [] := by decide

/-- C8, amended: the header loop scans only the actual columns, so
whenever the actual header sequence is a prefix of the expected one, every
position matches and the loop reports nothing - missing trailing columns
produce no report of any kind. -/
theorem c8_silent_on_missing (expected actual : List String)
    (h : actual <+: expected) : headerCheck expected actual = [] :=
  headerCheckFrom_silent expected actual 0 (by simpa using h)

/-- C8, witness: the amended statement at expected `[A,B,C]`, actual
`[A,B]`. -/
theorem c8_silent_on_missing_witness :
    (["A", "B"] <+: ["A", "B", "C"]) ∧ headerCheck ["A", "B", "C"] ["A", "B"] = [] :=
  ⟨⟨["C"], rfl⟩, c8_silent_on_missing ["A", "B", "C"] ["A", "B"] ⟨["C"], rfl⟩⟩

/-- C9, counterexample: the float `nan` is a Python float on which
`check_int` returns False (because `int(nan)` raises `ValueError`, which
the except clause catches), contradicting the claim that every float
passes. -/
theorem c9_counterexample :
    check_int PyVal.nan = .ok false ∧ check_int PyVal.nan ≠ .ok true :=
  ⟨rfl, fun h => absurd (Except.ok.inj h) (by decide)⟩

/-- C9, amended: `check_int` passes every finite float - `int()`
truncates it without raising - including 3.14, while the string "3.14"
fails and the float `nan` fails; so a numeral's outcome depends on
whether it arrives as a string or as a (finite) number. -/
theorem c9_int_accepts_finite_floats :
    (∀ d : Dec, check_int (.float d) = .ok true) ∧
      check_int (.float ⟨314, 2⟩) = .ok true ∧
      check_int (.str "3.14") = .ok false ∧
      check_int PyVal.nan = .ok false :=
  ⟨fun _ => rfl, rfl, rfl, rfl⟩

/-- C10: `check_len` measures `str(value)` and passes exactly the values
whose rendering has length 8 or 17; the fill string `"-9999999"` (length
8) passes both validators of the Cast Flag column even though
`LengthValidation` sits outside the fill OR-branch, while the numeric
fill `-9999999.0` renders as `"-9999999.0"` (length 10) and fails. -/
theorem c10_length_of_str :
    (∀ v : PyVal, check_len v = true ↔ (pyStr v).length = 8 ∨ (pyStr v).length = 17) ∧
      check_len (.str "-9999999") = true ∧
      castFlagCellErrors (.str "-9999999") = [] ∧
      pyStr (.float ⟨-9999999, 0⟩) = "-9999999.0" ∧
      check_len (.float ⟨-9999999, 0⟩) = false := by
  refine ⟨fun v => ?_, by decide, by decide, by decide, by decide⟩
  simp only [check_len, Bool.or_eq_true, beq_iff_eq]
  exact or_comm

end DiscreteSummary
